import Mathlib

/-
Shallow embedding of the QI-test Flask application (src/app.py).

The application grades a 30-question multiple-choice test, stores one
TestRecord per attempt in a SQLite table, creates a PIX charge at the
Mercado Pago gateway, reconciles payment status through a webhook, and
gates the full result behind an approved payment.  The embedding below
models:
  - Python answer values (ints, bools -- bool is a subclass of int -- and
    anything else) as `PyVal`;
  - the grading pipeline of `submit_test` (lines 155-275) over exact
    rationals: for every reachable input (0..30 correct answers) the
    double-precision arithmetic of the source and exact rational
    arithmetic produce the same truncated integer score and the same
    value rounded to one decimal, so the rational embedding is faithful;
  - the `tests` table as a `List TestRecord`; SQL statements become the
    corresponding list operations (`find?` for SELECT ... WHERE uuid,
    `map` for UPDATE ... WHERE uuid with the cursor rowcount given by
    `countP`, `filter` for DELETE);
  - the webhook handler `mercadopago_webhook` (lines 415-494), with the
    inbound body, database availability and the gateway lookup outcome
    as explicit parameters;
  - `create_payment` (lines 277-413), `check_payment` (lines 496-533),
    `get_result` (lines 535-576) and one sweep iteration of
    `cleanup_expired_tests` (lines 103-120).
-/

/-- Python value occupying one slot of the submitted answers list.  The
source validates with `isinstance(answer, int)`; in Python `bool` is a
subclass of `int` (True == 1, False == 0), so booleans pass that check. -/
inductive PyVal where
  | int : ℤ → PyVal
  | bool : Bool → PyVal
  | other : PyVal
deriving DecidableEq, Repr

/-- Result of the Python check `isinstance(answer, int)`: true for ints and
for bools (bool subclasses int), false for anything else. -/
def PyVal.isInstanceInt : PyVal → Bool
  | .int _ => true
  | .bool _ => true
  | .other => false

/-- Numeric value of a PyVal that passed `isinstance(answer, int)`:
True counts as 1 and False as 0. -/
def PyVal.toZ : PyVal → ℤ
  | .int n => n
  | .bool b => if b then 1 else 0
  | .other => 0

/-- Python equality `answer == k` against an integer key entry: numeric
comparison for ints and bools (True == 1), False for non-numbers. -/
def PyVal.eqKey (v : PyVal) (k : ℤ) : Bool :=
  match v with
  | .int n => n == k
  | .bool b => (if b then (1 : ℤ) else 0) == k
  | .other => false

/-- The fixed 30-entry answer key of src/app.py lines 193-194. -/
def correct_answers_list : List ℤ :=
  [1, 2, 3, 1, 4, 3, 2, 0, 1, 1, 1, 1, 1, 2, 2,
   4, 2, 1, 1, 1, 0, 0, 3, 1, 1, 1, 1, 3, 0, 0]

/-- Validation test of lines 186-190 for one answer slot:
`not isinstance(answer, int) or answer < 0 or answer > 4`. -/
def invalidAnswer (v : PyVal) : Bool :=
  !v.isInstanceInt || decide (v.toZ < 0) || decide (v.toZ > 4)

/-- Correct-answer count of lines 197-200: the source enumerates the user
answers and counts positions i with i < len(key) and answer == key[i],
which is exactly a count over the positional zip with the key. -/
def correct_count (user_answers : List PyVal) : ℕ :=
  ((user_answers.zip correct_answers_list).filter
    (fun q => q.1.eqKey q.2)).length

/-- Percentage of line 202: `(correct_count / 30) * 100`, exact. -/
def percentage_of (c : ℕ) : ℚ :=
  (c : ℚ) / 30 * 100

/-- Python `int()` truncation toward zero on a rational. -/
def pyInt (q : ℚ) : ℤ :=
  if q < 0 then ⌈q⌉ else ⌊q⌋

/-- IQ formula of lines 205-217: piecewise-linear in the percentage,
truncated with `int()` in every branch.  The decimal literals 1.5, 0.75
and 0.5 are exactly representable doubles in the source. -/
def iq_raw (p : ℚ) : ℤ :=
  if p ≥ 95 then pyInt (145 + (p - 95) * 2)
  else if p ≥ 85 then pyInt (130 + (p - 85) * 1.5)
  else if p ≥ 70 then pyInt (115 + (p - 70) * 1)
  else if p ≥ 50 then pyInt (100 + (p - 50) * 0.75)
  else if p ≥ 30 then pyInt (85 + (p - 30) * 0.75)
  else pyInt (70 + p * 0.5)

/-- Clamp of line 220: `max(50, min(200, iq_score))`. -/
def iq_clamped (p : ℚ) : ℤ :=
  max 50 (min 200 (iq_raw p))

/-- Level bands of lines 223-232 (labels as in the source, Portuguese). -/
def level_of (iq : ℤ) : String :=
  if iq ≥ 140 then "Gênio"
  else if iq ≥ 130 then "Superdotado"
  else if iq ≥ 115 then "Acima da Média"
  else if iq ≥ 85 then "Média"
  else "Abaixo da Média"

/-- Rounding of line 268, `round(percentage, 1)`.  On the reachable
percentages c/30*100 the fractional part of 10p is 0, 1/3 or 2/3, never
exactly one half, so round-half-to-even equals round-half-up and this
floor formulation matches the source for every reachable input. -/
def round1 (q : ℚ) : ℚ :=
  (⌊q * 10 + 1 / 2⌋ : ℚ) / 10

/-- Successful response body of lines 262-269 (the random uuid is
abstracted away; score, level, correct count and rounded percentage are
kept). -/
structure SubmitOk where
  score : ℤ
  level : String
  correct_answers : ℕ
  percentage : ℚ
deriving DecidableEq, Repr

/-- HTTP outcome of `submit_test`: `badRequest` is a 400 response with an
error message, `serverError` a 500 response (storage failure), `ok` a 200
response. -/
inductive SubmitResult where
  | badRequest (msg : String)
  | serverError
  | ok (r : SubmitOk)
deriving DecidableEq

/-- Grading pipeline of lines 196-232 and the response of lines 262-269,
applied after validation passed. -/
def grade_test (user_answers : List PyVal) : SubmitOk :=
  let c := correct_count user_answers
  let p := percentage_of c
  let iq := iq_clamped p
  { score := iq
    level := level_of iq
    correct_answers := c
    percentage := round1 p }

/-- Handler `submit_test` (lines 155-275).  The transport-level JSON
checks (lines 162-169) are outside the embedding; `db_ok` models whether
the INSERT of lines 239-260 succeeds (on sqlite3.Error the handler
responds 500).  The validation loop of lines 186-190 returns a 400 at the
first invalid element, modelled with `find?`. -/
def submit_test (user_answers : List PyVal) (db_ok : Bool) : SubmitResult :=
  if user_answers.length ≠ 30 then
    .badRequest "Numero incorreto de respostas"
  else
    match user_answers.find? invalidAnswer with
    | some _ => .badRequest "Resposta invalida"
    | none =>
      if db_ok then .ok (grade_test user_answers) else .serverError

/-- Row of the `tests` table (schema at lines 60-76).  Timestamps are
modelled as integers; `payment_status` defaults to "pending" at INSERT
(line 70). -/
structure TestRecord where
  uuid : String
  user_answers : List PyVal
  score : ℤ
  level : String
  correct_answers : ℕ
  percentage : ℚ
  payment_id : Option String
  payment_status : String
  qr_code_data : Option String
  customer_email : String
  expires_at : ℤ
deriving DecidableEq, Repr

/-- Lookup `SELECT * FROM tests WHERE uuid = ?` with `fetchone()`:
the first row whose uuid matches. -/
def find_test (db : List TestRecord) (test_uuid : String) : Option TestRecord :=
  db.find? (fun r => r.uuid == test_uuid)

/-- Effect of the webhook UPDATE at lines 460-464 / 472-476:
`UPDATE tests SET payment_status = s WHERE uuid = ref`.  First component
is the new table, second is `cursor.rowcount` (rows matched by the WHERE
clause; sqlite counts them whether or not the value changes).  The WHERE
clause filters on uuid only -- there is no guard on the current status. -/
def set_payment_status (db : List TestRecord) (ref s : String) :
    List TestRecord × ℕ :=
  (db.map (fun r => if r.uuid == ref then { r with payment_status := s } else r),
   db.countP (fun r => r.uuid == ref))

/-- Effect of the UPDATE at lines 386-390:
`UPDATE tests SET payment_id = ?, qr_code_data = ? WHERE uuid = ?`.
Unconditional overwrite of both columns on every matching row. -/
def attach_payment (db : List TestRecord) (u pid qrb : String) :
    List TestRecord :=
  db.map (fun r =>
    if r.uuid == u then
      { r with payment_id := some pid, qr_code_data := some qrb }
    else r)

/-- One sweep iteration of `cleanup_expired_tests` (lines 103-120):
`DELETE FROM tests WHERE expires_at < now AND payment_status = "pending"`.
First component is the surviving table, second the deleted row count. -/
def cleanup_expired_tests (db : List TestRecord) (now : ℤ) :
    List TestRecord × ℕ :=
  (db.filter (fun r =>
     !(decide (r.expires_at < now) && (r.payment_status == "pending"))),
   db.countP (fun r =>
     decide (r.expires_at < now) && (r.payment_status == "pending")))

/-- Response of `GET /check_payment/<uuid>` (lines 496-533): 404 when the
uuid is unknown, otherwise a 200 body carrying the payment status AND the
full result data including the answers breakdown (lines 521-529). -/
inductive CheckPaymentResult where
  | notFound
  | ok (test_uuid : String) (payment_status : String) (score : ℤ)
      (level : String) (correct_answers : ℕ) (percentage : ℚ)
      (user_answers : List PyVal)
deriving DecidableEq

/-- Handler `check_payment` (lines 496-533). -/
def check_payment (db : List TestRecord) (test_uuid : String) :
    CheckPaymentResult :=
  match find_test db test_uuid with
  | none => .notFound
  | some r =>
    .ok r.uuid r.payment_status r.score r.level r.correct_answers
      r.percentage r.user_answers

/-- Response of `GET /get_result/<uuid>` (lines 535-576): 404 when the
uuid is unknown, 403 carrying the current payment status when it is not
"approved", otherwise a 200 body with the full result. -/
inductive GetResult where
  | notFound
  | forbidden (payment_status : String)
  | ok (test_uuid : String) (score : ℤ) (level : String)
      (correct_answers : ℕ) (percentage : ℚ) (user_answers : List PyVal)
      (payment_status : String)
deriving DecidableEq

/-- Handler `get_result` (lines 535-576). -/
def get_result (db : List TestRecord) (test_uuid : String) : GetResult :=
  match find_test db test_uuid with
  | none => .notFound
  | some r =>
    if r.payment_status ≠ "approved" then .forbidden r.payment_status
    else
      .ok r.uuid r.score r.level r.correct_answers r.percentage
        r.user_answers r.payment_status

/-- Python truthiness of an optional string: None and the empty string are
falsy (used for `if external_reference and ...` at lines 458/471 and for
`if payment_id:` at line 444). -/
def truthyStr : Option String → Bool
  | none => false
  | some s => !(s == "")

/-- Fields of a parsed webhook body that the handler reads:
`data.get("action")`, `data.get("type")` and `data.get("data").get("id")`
(lines 431-442). -/
structure WebhookData where
  action : Option String
  typ : Option String
  data_id : Option String
deriving DecidableEq

/-- Inbound webhook body as seen by the handler.  `malformed` stands for a
body on which parsing or attribute access raises (invalid JSON, or a JSON
body that is not an object, so that `data.get` raises AttributeError);
`empty` for a parsed but falsy body (None or an empty object), which takes
the early return at lines 422-424. -/
inductive WebhookBody where
  | malformed
  | empty
  | parsed (d : WebhookData)
deriving DecidableEq

/-- Outcome of `sdk.payment().get(payment_id)` at line 449: `raises` when
the call throws (caught at lines 479-480), otherwise the response status
plus the fields `status` and `external_reference` of the payment object
(lines 451-454). -/
inductive PaymentLookup where
  | raises
  | resp (status : ℤ) (payment_status : Option String)
      (external_reference : Option String)
deriving DecidableEq

/-- HTTP status and resulting table of one webhook invocation. -/
structure WebhookOutcome where
  http_status : ℕ
  db : List TestRecord
deriving DecidableEq

/-- Handler `mercadopago_webhook` (lines 415-494).  `db_ok` models the
sqlite connection and statements: when false, a sqlite3.Error is raised
and caught at lines 485-487, still answering 200.  A malformed body makes
`request.get_json()` (or the later attribute access) raise; that lands in
the outer handler at lines 490-494, which answers 500.  The append-only
INSERT into webhook_logs (lines 435-438) has no observable effect on the
`tests` table and is elided.  The status mapping of lines 458-477 applies
"approved" for provider statuses approved/authorized and "rejected" for
rejected/cancelled, and requires a truthy external_reference. -/
def mercadopago_webhook (body : WebhookBody) (db_ok : Bool)
    (lookup : PaymentLookup) (db : List TestRecord) : WebhookOutcome :=
  match body with
  | .malformed => ⟨500, db⟩
  | .empty => ⟨200, db⟩
  | .parsed d =>
    if !db_ok then ⟨200, db⟩
    else if (d.action == some "payment.updated") || (d.typ == some "payment") then
      if truthyStr d.data_id then
        match lookup with
        | .raises => ⟨200, db⟩
        | .resp st pstat ext =>
          if st == 200 then
            if truthyStr ext &&
                ((pstat == some "approved") || (pstat == some "authorized")) then
              ⟨200, (set_payment_status db (ext.getD "") "approved").1⟩
            else if truthyStr ext &&
                ((pstat == some "rejected") || (pstat == some "cancelled")) then
              ⟨200, (set_payment_status db (ext.getD "") "rejected").1⟩
            else ⟨200, db⟩
          else ⟨200, db⟩
      else ⟨200, db⟩
    else ⟨200, db⟩

/-- Outcome of `sdk.payment().create(payment_data)` at line 341: `raises`
when the SDK call throws (caught at lines 344-347), otherwise the response
status (201 expected, line 349) and the created payment fields. -/
inductive ChargeCreate where
  | raises
  | resp (status : ℤ) (payment_id : String) (qr_code : String)
      (qr_code_base64 : String)
deriving DecidableEq

/-- HTTP outcome of `create_payment`: 400, 404, 500 (gateway failure or
non-201 response), 500 (storage failure), or the 200 body of
lines 401-407. -/
inductive CreatePaymentResult where
  | badRequest (msg : String)
  | notFound
  | gatewayError
  | storageError
  | ok (payment_id : String) (qr_code_base64 : String) (qr_code_text : String)
      (expiration_time : ℕ)
deriving DecidableEq

/-- Handler `create_payment` (lines 277-413).  `test_uuid = none` models a
missing or falsy test_uuid in the request (400, lines 287-291).  `db_ok`
models sqlite availability (500 on failure).  `qr_encode` is the local QR
code generation of lines 370-383, applied only when the gateway returned
no base64 image but did return QR text; its output is an opaque string.
The final UPDATE (lines 386-390) overwrites payment_id and qr_code_data
unconditionally -- there is no check against a previously attached
payment_id and no 409 response anywhere in the handler. -/
def create_payment (test_uuid : Option String) (db : List TestRecord)
    (charge : ChargeCreate) (qr_encode : String → String) (db_ok : Bool) :
    CreatePaymentResult × List TestRecord :=
  match test_uuid with
  | none => (.badRequest "test_uuid e obrigatorio", db)
  | some u =>
    if !db_ok then (.storageError, db)
    else
      match find_test db u with
      | none => (.notFound, db)
      | some _ =>
        match charge with
        | .raises => (.gatewayError, db)
        | .resp st pid qrt qrb =>
          if st ≠ 201 then (.gatewayError, db)
          else
            let qrb2 := if (qrb == "") && !(qrt == "") then qr_encode qrt else qrb
            (.ok pid qrb2 qrt 7200, attach_payment db u pid qrb2)

/-- Scoring function exactly as the specification states it: the band
table over the percentage (95/85/70/50/30 thresholds with slopes 2, 1.5,
1, 0.75, 0.75, 0.5), truncated to an integer and clamped to [50, 200].
Stated separately from `iq_raw`/`iq_clamped` so that the code-derived
score can be compared against the spec-derived one. -/
def spec_score_table (p : ℚ) : ℤ :=
  max 50 (min 200 (
    if p ≥ 95 then pyInt (145 + (p - 95) * 2)
    else if p ≥ 85 then pyInt (130 + (p - 85) * 1.5)
    else if p ≥ 70 then pyInt (115 + (p - 70) * 1)
    else if p ≥ 50 then pyInt (100 + (p - 50) * 0.75)
    else if p ≥ 30 then pyInt (85 + (p - 30) * 0.75)
    else pyInt (70 + p * 0.5)))

/-- Answer list hitting the key on all 30 questions. -/
def answers_all_correct : List PyVal :=
  correct_answers_list.map PyVal.int

/-- Answer list missing the key on all 30 questions (each entry is the key
entry plus one, modulo five). -/
def answers_all_wrong : List PyVal :=
  ([2, 3, 4, 2, 0, 4, 3, 1, 2, 2, 2, 2, 2, 3, 3,
    0, 3, 2, 2, 2, 1, 1, 4, 2, 2, 2, 2, 4, 1, 1] : List ℤ).map PyVal.int

/-- Sample stored record with an approved payment and an expiry in the
past (relative to the sample clock value 100). -/
def rec_approved : TestRecord :=
  { uuid := "ta"
    user_answers := [PyVal.int 1, PyVal.int 0]
    score := 100
    level := "Média"
    correct_answers := 15
    percentage := 50
    payment_id := some "MP-A"
    payment_status := "approved"
    qr_code_data := none
    customer_email := "a@example.com"
    expires_at := 10 }

/-- Sample stored record still awaiting payment. -/
def rec_pending : TestRecord :=
  { uuid := "tp"
    user_answers := [PyVal.int 3, PyVal.int 2]
    score := 100
    level := "Média"
    correct_answers := 15
    percentage := 50
    payment_id := none
    payment_status := "pending"
    qr_code_data := none
    customer_email := "p@example.com"
    expires_at := 10 }

/-- Sample stored record that already has a payment attached. -/
def rec_paid : TestRecord :=
  { uuid := "t8"
    user_answers := [PyVal.int 4]
    score := 100
    level := "Média"
    correct_answers := 15
    percentage := 50
    payment_id := some "MP-A"
    payment_status := "pending"
    qr_code_data := some "OLDQR"
    customer_email := "q@example.com"
    expires_at := 10 }

/-- C3: for every record id, GET /get_result/{id} returns 404 if the id is
unknown; returns 403 together with the current payment status whenever the
record has paymentStatus "pending" or "rejected"; and returns 200 with the
full result payload exactly when paymentStatus is "approved". -/
theorem C3_get_result_gating (db : List TestRecord) (u : String) :
    (find_test db u = none → get_result db u = .notFound) ∧
    (∀ r, find_test db u = some r →
      ((r.payment_status = "pending" ∨ r.payment_status = "rejected") →
        get_result db u = .forbidden r.payment_status) ∧
      (get_result db u =
          .ok r.uuid r.score r.level r.correct_answers r.percentage
            r.user_answers r.payment_status
        ↔ r.payment_status = "approved")) := by
  refine ⟨fun h => by simp [get_result, h], fun r hr => ⟨?_, ?_⟩⟩
  · rintro (hs | hs) <;> simp [get_result, hr, hs]
  · by_cases ha : r.payment_status = "approved" <;>
      simp [get_result, hr, ha]

/-- Witness for C3 at a concrete store: a pending record yields 403 with
its current status. -/
theorem C3_witness : get_result [rec_pending] "tp" = .forbidden "pending" :=
  ((C3_get_result_gating [rec_pending] "tp").2 rec_pending rfl).1 (Or.inl rfl)

/-- C7: the expiry sweep deletes a record exactly when its expiry time has
passed and its payment status is "pending"; approved or rejected records
survive even when expired. -/
theorem C7_sweep_pending_only (db : List TestRecord) (now : ℤ)
    (r : TestRecord) (hr : r ∈ db) :
    (r ∈ (cleanup_expired_tests db now).1 ↔
      ¬(r.expires_at < now ∧ r.payment_status = "pending")) ∧
    ((r.payment_status = "approved" ∨ r.payment_status = "rejected") →
      r ∈ (cleanup_expired_tests db now).1) := by
  have hmem : r ∈ (cleanup_expired_tests db now).1 ↔
      ¬(r.expires_at < now ∧ r.payment_status = "pending") := by
    constructor
    · intro h hc
      have hkeep := (List.mem_filter.mp h).2
      simp [hc.1, hc.2] at hkeep
    · intro h
      refine List.mem_filter.mpr ⟨hr, ?_⟩
      by_cases he : r.expires_at < now
      · by_cases hp : r.payment_status = "pending"
        · exact absurd ⟨he, hp⟩ h
        · simp [he, hp]
      · simp [he]
  refine ⟨hmem, fun hs => hmem.mpr ?_⟩
  rintro ⟨-, hp⟩
  rcases hs with h1 | h1 <;>
    exact absurd (h1.symm.trans hp) (by decide)

/-- Witness for C7: an approved record whose expiry (10) lies in the past
of the sweep clock (100) is nevertheless retained. -/
theorem C7_witness :
    rec_approved ∈ (cleanup_expired_tests [rec_approved] 100).1 :=
  (C7_sweep_pending_only [rec_approved] 100 rec_approved
    (List.mem_cons_self _ _)).2 (Or.inl rfl)

/-- Counterexample to C2 as stated: GET /check_payment/{id} returns the
answers breakdown (together with score and level) for a record whose
paymentStatus is still "pending". -/
theorem C2_counterexample :
    check_payment [rec_pending] "tp" =
      .ok "tp" "pending" 100 "Média" 15 50 [PyVal.int 3, PyVal.int 2] := rfl

/-- C2 amended: only GET /get_result gates on approval; GET /check_payment
returns the full result data, answers breakdown included, for every known
record regardless of its payment status. -/
theorem C2_amended_check_payment_ungated (db : List TestRecord) (u : String)
    (r : TestRecord) (hr : find_test db u = some r) :
    check_payment db u =
      .ok r.uuid r.payment_status r.score r.level r.correct_answers
        r.percentage r.user_answers ∧
    (r.payment_status ≠ "approved" →
      get_result db u = .forbidden r.payment_status) := by
  refine ⟨by simp [check_payment, hr], fun h => ?_⟩
  simp only [get_result, hr]
  rw [if_pos h]

/-- Witness for the amended C2 at a concrete pending record. -/
theorem C2_witness :
    check_payment [rec_pending] "tp" =
      .ok rec_pending.uuid rec_pending.payment_status rec_pending.score
        rec_pending.level rec_pending.correct_answers rec_pending.percentage
        rec_pending.user_answers :=
  (C2_amended_check_payment_ungated [rec_pending] "tp" rec_pending rfl).1

/-- Counterexample to C1 as stated: a webhook notification whose gateway
lookup maps to "rejected" flips a record whose paymentStatus is already
"approved" to "rejected", and the UPDATE reports one affected row, not
zero. -/
theorem C1_counterexample :
    (mercadopago_webhook
        (.parsed ⟨some "payment.updated", none, some "111"⟩) true
        (.resp 200 (some "rejected") (some "ta")) [rec_approved]).db
      = [{ rec_approved with payment_status := "rejected" }] ∧
    (set_payment_status [rec_approved] "ta" "rejected").2 = 1 :=
  ⟨rfl, rfl⟩

/-- C1 amended: the status UPDATE triggered by a webhook notification
matches on the uuid only and carries no guard on the current status:
every record whose uuid equals the external reference has its
paymentStatus overwritten with the mapped value and is counted as an
affected row, even when it is already "approved" or "rejected"; settled
records are not immutable. -/
theorem C1_amended_update_unguarded (db : List TestRecord) (ref s : String)
    (r : TestRecord) (hr : r ∈ db) (hu : r.uuid = ref) :
    { r with payment_status := s } ∈ (set_payment_status db ref s).1 ∧
    1 ≤ (set_payment_status db ref s).2 := by
  constructor
  · exact List.mem_map.mpr ⟨r, hr, by simp [hu]⟩
  · exact List.countP_pos_iff.mpr ⟨r, hr, by simp [hu]⟩

/-- Witness for the amended C1: the concrete already-approved record is
rewritten to "rejected" by the unguarded UPDATE. -/
theorem C1_witness :
    { rec_approved with payment_status := "rejected" } ∈
      (set_payment_status [rec_approved] "ta" "rejected").1 :=
  (C1_amended_update_unguarded [rec_approved] "ta" "rejected" rec_approved
    (List.mem_cons_self _ _) rfl).1

/-- Counterexample to C4 as stated: an inbound body on which JSON parsing
or attribute access raises escapes to the generic exception handler and is
answered with HTTP 500, not 200. -/
theorem C4_counterexample :
    (mercadopago_webhook .malformed true .raises []).http_status = 500 := rfl

/-- C4 amended: the webhook answers 200 for every parsed payload --
irrelevant events, gateway lookup failures and storage errors are all
absorbed -- and for empty payloads, but a body that raises during parsing
or field access reaches the outer exception handler and is answered 500. -/
theorem C4_amended_webhook_always_200_except_parse (d : WebhookData)
    (db_ok : Bool) (lookup : PaymentLookup) (db : List TestRecord) :
    (mercadopago_webhook (.parsed d) db_ok lookup db).http_status = 200 ∧
    (mercadopago_webhook .empty db_ok lookup db).http_status = 200 ∧
    (mercadopago_webhook .malformed db_ok lookup db).http_status = 500 := by
  refine ⟨?_, rfl, rfl⟩
  cases lookup <;> (simp only [mercadopago_webhook]; repeat' split)
  all_goals rfl

/-- Counterexample to C8 as stated: retrying payment creation with a
different gateway payment id on a record that already carries payment id
"MP-A" succeeds with a 200 body and silently replaces the stored id with
"MP-B"; no ConflictError / 409 is produced. -/
theorem C8_counterexample :
    create_payment (some "t8") [rec_paid] (.resp 201 "MP-B" "pix" "IMG")
        (fun s => s) true
      = (.ok "MP-B" "IMG" "pix" 7200,
         [{ rec_paid with
             payment_id := some "MP-B"
             qr_code_data := some "IMG" }]) := rfl

/-- C8 amended: on any successful gateway charge, create_payment
unconditionally overwrites payment_id and qr_code_data of every record
matching the uuid -- including records that already carry a different
payment id -- and responds 200; the handler has no conflict detection and
no 409 path. -/
theorem C8_amended_attach_overwrites (db : List TestRecord)
    (u pid qrt qrb : String) (qenc : String → String) (r : TestRecord)
    (hr : r ∈ db) (hu : r.uuid = u) :
    (create_payment (some u) db (.resp 201 pid qrt qrb) qenc true).1 =
      .ok pid (if (qrb == "") && !(qrt == "") then qenc qrt else qrb)
        qrt 7200 ∧
    (create_payment (some u) db (.resp 201 pid qrt qrb) qenc true).2 =
      attach_payment db u pid
        (if (qrb == "") && !(qrt == "") then qenc qrt else qrb) ∧
    { r with
        payment_id := some pid
        qr_code_data :=
          some (if (qrb == "") && !(qrt == "") then qenc qrt else qrb) } ∈
      (create_payment (some u) db (.resp 201 pid qrt qrb) qenc true).2 := by
  obtain ⟨r0, hr0⟩ : ∃ r0, find_test db u = some r0 :=
    Option.isSome_iff_exists.mp
      (List.find?_isSome.mpr ⟨r, hr, by simp [hu]⟩)
  refine ⟨by simp [create_payment, hr0], by simp [create_payment, hr0], ?_⟩
  have hstep :
      (create_payment (some u) db (.resp 201 pid qrt qrb) qenc true).2 =
        attach_payment db u pid
          (if (qrb == "") && !(qrt == "") then qenc qrt else qrb) := by
    simp [create_payment, hr0]
  rw [hstep]
  exact List.mem_map.mpr ⟨r, hr, by simp [hu]⟩

/-- Witness for the amended C8: the concrete record carrying payment id
"MP-A" ends up carrying "MP-B" after the retry. -/
theorem C8_witness :
    { rec_paid with
        payment_id := some "MP-B"
        qr_code_data := some "IMG" } ∈
      (create_payment (some "t8") [rec_paid] (.resp 201 "MP-B" "pix" "IMG")
        (fun s => s) true).2 :=
  (C8_amended_attach_overwrites [rec_paid] "t8" "MP-B" "pix" "IMG"
    (fun s => s) rec_paid (List.mem_cons_self _ _) rfl).2.2

/-- Helper: a 30-element answer list with no invalid entry is graded. -/
theorem submit_test_ok_of_valid (ua : List PyVal) (h30 : ua.length = 30)
    (hf : ua.find? invalidAnswer = none) :
    submit_test ua true = .ok (grade_test ua) := by
  simp [submit_test, h30, hf]

/-- C5: for every valid answer sequence the computed score equals the
piecewise band formula of the specification, truncated and clamped; in
particular 30/30 correct yields score 155 in the top band (the one the
spec labels Genius, "Gênio" in the source) and 0/30 correct yields score
70 in the bottom band (the one the spec labels Below Average, "Abaixo da
Média" in the source). -/
theorem C5_score_formula (ua : List PyVal) (h30 : ua.length = 30)
    (hval : ∀ a ∈ ua, invalidAnswer a = false) :
    submit_test ua true = .ok (grade_test ua) ∧
    (grade_test ua).score =
      spec_score_table (percentage_of (correct_count ua)) ∧
    submit_test answers_all_correct true =
      .ok { score := 155, level := "Gênio", correct_answers := 30,
            percentage := 100 } ∧
    submit_test answers_all_wrong true =
      .ok { score := 70, level := "Abaixo da Média", correct_answers := 0,
            percentage := 0 } := by
  have hfind : ua.find? invalidAnswer = none :=
    List.find?_eq_none.mpr (fun a ha => by simp [hval a ha])
  refine ⟨submit_test_ok_of_valid ua h30 hfind, rfl, ?_, ?_⟩
  · have hc : correct_count answers_all_correct = 30 := rfl
    have hiq : iq_clamped (percentage_of 30) = 155 := by
      norm_num [iq_clamped, iq_raw, percentage_of, pyInt]
    have hro : round1 (percentage_of 30) = 100 := by
      norm_num [round1, percentage_of]
    have hg : grade_test answers_all_correct =
        { score := 155, level := "Gênio", correct_answers := 30,
          percentage := 100 } := by
      simp only [grade_test, hc, hiq, hro]
      rfl
    rw [submit_test_ok_of_valid answers_all_correct rfl rfl, hg]
  · have hc : correct_count answers_all_wrong = 0 := rfl
    have hiq : iq_clamped (percentage_of 0) = 70 := by
      norm_num [iq_clamped, iq_raw, percentage_of, pyInt]
    have hro : round1 (percentage_of 0) = 0 := by
      norm_num [round1, percentage_of]
    have hg : grade_test answers_all_wrong =
        { score := 70, level := "Abaixo da Média", correct_answers := 0,
          percentage := 0 } := by
      simp only [grade_test, hc, hiq, hro]
      rfl
    rw [submit_test_ok_of_valid answers_all_wrong rfl rfl, hg]

/-- Witness for C5 at the concrete all-correct answer sheet. -/
theorem C5_witness :
    submit_test answers_all_correct true = .ok (grade_test answers_all_correct) :=
  (C5_score_formula answers_all_correct rfl (by decide)).1

/-- C9: for every valid answer sequence the computed score lies in
[70, 155], so neither the lower clamp to 50 nor the upper clamp to 200 is
ever active and the clamped score equals the raw band value. -/
theorem C9_clamps_never_active (ua : List PyVal) (h30 : ua.length = 30)
    (hval : ∀ a ∈ ua, invalidAnswer a = false) :
    70 ≤ (grade_test ua).score ∧ (grade_test ua).score ≤ 155 ∧
    (grade_test ua).score = iq_raw (percentage_of (correct_count ua)) := by
  have hkey : correct_answers_list.length = 30 := rfl
  have hcle : correct_count ua ≤ 30 := by
    have h1 : (ua.zip correct_answers_list).length ≤ 30 := by
      rw [List.length_zip, hkey, h30]
      exact Nat.min_le_right 30 30
    exact le_trans (List.length_filter_le _ _) h1
  have hb : ∀ c : ℕ, c ≤ 30 →
      70 ≤ iq_raw (percentage_of c) ∧ iq_raw (percentage_of c) ≤ 155 := by
    intro c hc
    interval_cases c <;> constructor <;>
      norm_num [iq_raw, percentage_of, pyInt]
  have _ := hval
  obtain ⟨hlo, hhi⟩ := hb _ hcle
  have hs : (grade_test ua).score =
      iq_clamped (percentage_of (correct_count ua)) := rfl
  have hcl : iq_clamped (percentage_of (correct_count ua)) =
      iq_raw (percentage_of (correct_count ua)) := by
    unfold iq_clamped
    omega
  rw [hs, hcl]
  exact ⟨hlo, hhi, rfl⟩

/-- Witness for C9 at the concrete all-correct answer sheet. -/
theorem C9_witness : 70 ≤ (grade_test answers_all_correct).score :=
  (C9_clamps_never_active answers_all_correct rfl (by decide)).1

/-- C10: because bool is a subclass of int in Python, answer lists made of
booleans pass the isinstance-and-range validation and are graded with
True counted as 1 and False as 0: thirty True answers match the fourteen
key entries equal to 1 (score 97), thirty False answers match the five
key entries equal to 0 (score 78); neither is rejected with a 400. -/
theorem C10_bool_answers_accepted :
    submit_test (List.replicate 30 (PyVal.bool true)) true =
      .ok { score := 97, level := "Média", correct_answers := 14,
            percentage := 467 / 10 } ∧
    submit_test (List.replicate 30 (PyVal.bool false)) true =
      .ok { score := 78, level := "Abaixo da Média", correct_answers := 5,
            percentage := 167 / 10 } := by
  constructor
  · have hc : correct_count (List.replicate 30 (PyVal.bool true)) = 14 := rfl
    have hiq : iq_clamped (percentage_of 14) = 97 := by
      norm_num [iq_clamped, iq_raw, percentage_of, pyInt]
    have hro : round1 (percentage_of 14) = 467 / 10 := by
      norm_num [round1, percentage_of]
    have hg : grade_test (List.replicate 30 (PyVal.bool true)) =
        { score := 97, level := "Média", correct_answers := 14,
          percentage := 467 / 10 } := by
      simp only [grade_test, hc, hiq, hro]
      rfl
    rw [submit_test_ok_of_valid (List.replicate 30 (PyVal.bool true)) rfl rfl,
      hg]
  · have hc : correct_count (List.replicate 30 (PyVal.bool false)) = 5 := rfl
    have hiq : iq_clamped (percentage_of 5) = 78 := by
      norm_num [iq_clamped, iq_raw, percentage_of, pyInt]
    have hro : round1 (percentage_of 5) = 167 / 10 := by
      norm_num [round1, percentage_of]
    have hg : grade_test (List.replicate 30 (PyVal.bool false)) =
        { score := 78, level := "Abaixo da Média", correct_answers := 5,
          percentage := 167 / 10 } := by
      simp only [grade_test, hc, hiq, hro]
      rfl
    rw [submit_test_ok_of_valid (List.replicate 30 (PyVal.bool false)) rfl rfl,
      hg]

/-- C6: submitting an integer answer sequence yields a 400 validation
error exactly when the sequence does not have length 30 or contains an
element outside [0, 4]; every sequence of exactly 30 integers in [0, 4]
is accepted and graded. -/
theorem C6_submit_validation (xs : List ℤ) :
    ((∃ msg, submit_test (xs.map PyVal.int) true = .badRequest msg) ↔
      (xs.length ≠ 30 ∨ ∃ a ∈ xs, a < 0 ∨ 4 < a)) ∧
    (xs.length = 30 → (∀ a ∈ xs, 0 ≤ a ∧ a ≤ 4) →
      submit_test (xs.map PyVal.int) true =
        .ok (grade_test (xs.map PyVal.int))) := by
  have hok : xs.length = 30 → (∀ a ∈ xs, 0 ≤ a ∧ a ≤ 4) →
      submit_test (xs.map PyVal.int) true =
        .ok (grade_test (xs.map PyVal.int)) := by
    intro h30 hb
    have hf : (xs.map PyVal.int).find? invalidAnswer = none := by
      refine List.find?_eq_none.mpr ?_
      intro v hv
      obtain ⟨a, ha, rfl⟩ := List.mem_map.mp hv
      have hab := hb a ha
      simp [invalidAnswer, PyVal.isInstanceInt, PyVal.toZ]
      omega
    exact submit_test_ok_of_valid _ (by simp [h30]) hf
  refine ⟨⟨?_, ?_⟩, hok⟩
  · rintro ⟨msg, hmsg⟩
    by_cases h30 : xs.length = 30
    · right
      by_contra hno
      push_neg at hno
      have hb : ∀ a ∈ xs, 0 ≤ a ∧ a ≤ 4 := by
        intro a ha
        have h2 := hno a ha
        omega
      rw [hok h30 hb] at hmsg
      exact SubmitResult.noConfusion hmsg
    · exact Or.inl h30
  · rintro (h30 | ⟨a, ha, hout⟩)
    · exact ⟨"Numero incorreto de respostas", by simp [submit_test, h30]⟩
    · by_cases h30 : xs.length = 30
      · have hsome : ((xs.map PyVal.int).find? invalidAnswer).isSome := by
          refine List.find?_isSome.mpr
            ⟨PyVal.int a, List.mem_map_of_mem _ ha, ?_⟩
          simp [invalidAnswer, PyVal.isInstanceInt, PyVal.toZ]
          omega
        obtain ⟨w, hw⟩ := Option.isSome_iff_exists.mp hsome
        exact ⟨"Resposta invalida", by simp [submit_test, h30, hw]⟩
      · exact ⟨"Numero incorreto de respostas", by simp [submit_test, h30]⟩

/-- Witness for C6: the key itself is a valid sequence and is graded. -/
theorem C6_witness :
    submit_test (correct_answers_list.map PyVal.int) true =
      .ok (grade_test (correct_answers_list.map PyVal.int)) :=
  (C6_submit_validation correct_answers_list).2 rfl (by decide)
